import Mathlib

/-!
Shallow embedding of the anomaly-detection core of the IIoT-OPCUA repository.

Python floats are modelled as real numbers.  A value that may be a
non-numeric payload (Python lets any object reach `check_if_anomaly`) is
modelled as `Option ℝ`, with `none` standing for a non-numeric value: the
operations that raise a `TypeError`/`StatisticsError` on such inputs are
modelled as `Option`-returning functions, and the `try/except` blocks of the
source become explicit early returns of the state accumulated so far.

The embedded functions follow
`src/electrical_anomaly_analytics_zscore/src/helper.py`
(class `AnomalyDetectionZscore`) and
`src/electrical_anomaly_analytics_zscore/src/script.py`
(class `OpcHandlerAnalytics`).
-/

/-- Python rounding to the nearest integer, ties to even
(the semantics of the built-in `round`). -/
noncomputable def pyRound (x : ℝ) : ℤ :=
  if Int.fract x = 1 / 2 then (if Even ⌊x⌋ then ⌊x⌋ else ⌊x⌋ + 1) else round x

/-- Python `round(x, ndigits)` for a non-negative digit count. -/
noncomputable def pyRoundTo (ndigits : ℕ) (x : ℝ) : ℝ :=
  (pyRound (x * 10 ^ ndigits) : ℝ) / 10 ^ ndigits

/-- One datum handed to the detector: `some x` is a float with value `x`,
`none` is a non-numeric payload. -/
abbrev Value := Option ℝ

/-- Extract the numeric contents of a list of payloads; `none` when some
entry is non-numeric (arithmetic on the list would raise a `TypeError`). -/
def toNums : List Value → Option (List ℝ)
  | [] => some []
  | none :: _ => none
  | some x :: rest => (toNums rest).map (fun ys => x :: ys)

/-- Python `statistics.mean`: fails (raises) on an empty list or on
non-numeric entries. -/
noncomputable def statistics_mean (l : List Value) : Option ℝ :=
  match toNums l with
  | none => none
  | some xs => if xs = [] then none else some (xs.sum / xs.length)

/-- Python `statistics.stdev` (sample standard deviation): fails (raises)
on fewer than two data points or on non-numeric entries. -/
noncomputable def statistics_stdev (l : List Value) : Option ℝ :=
  match toNums l with
  | none => none
  | some xs =>
    if 2 ≤ xs.length then
      some (Real.sqrt
        ((xs.map (fun x => (x - xs.sum / xs.length) ^ 2)).sum / ((xs.length : ℝ) - 1)))
    else none

/-- State of one `AnomalyDetectionZscore` unit (`helper.py`, lines 144-156).
The `logger` attribute carries no algorithmic state and is omitted. -/
structure AnomalyDetectionZscore where
  model_data : List Value
  model_size : ℕ
  anomaly_list : List ℤ
  anomaly_list_size : ℕ
  anomaly_ratio : ℝ
  anomaly : ℤ
  model_avg : ℝ
  model_std_dev : ℝ
  z_score : ℝ
  z_score_thresh : ℝ
  name : String

/-- Projection helper for the rolling-ratio field. -/
def ratio_val (s : AnomalyDetectionZscore) : ℝ :=
  AnomalyDetectionZscore.anomaly_ratio s

/-- Constructor `AnomalyDetectionZscore.__init__` (`helper.py`, lines 144-156). -/
def initUnit (name : String) (model_size anomaly_list_size : ℕ) :
    AnomalyDetectionZscore where
  model_data := []
  model_size := model_size
  anomaly_list := []
  anomaly_list_size := anomaly_list_size
  anomaly_ratio := 0
  anomaly := 0
  model_avg := 0
  model_std_dev := 0
  z_score := 0
  z_score_thresh := 0
  name := name

/-- Setter of the `z_score_thresh` property (`helper.py`, lines 195-201). -/
noncomputable def set_z_score_thresh (s : AnomalyDetectionZscore)
    (z_score_threshold : ℝ) : AnomalyDetectionZscore :=
  if z_score_threshold = 0 then { s with z_score_thresh := 2.0 }
  else { s with z_score_thresh := z_score_threshold }

/-- Method `reset_algorithm` (`helper.py`, lines 203-212). -/
def reset_algorithm (s : AnomalyDetectionZscore) : AnomalyDetectionZscore :=
  { s with
    model_data := []
    anomaly_list := []
    anomaly_ratio := 0
    anomaly := 0
    model_avg := 0
    model_std_dev := 0
    z_score := 0 }

/-- Method `is_model_complete` (`helper.py`, lines 214-216). -/
def is_model_complete (s : AnomalyDetectionZscore) : Bool :=
  s.model_data.length == s.model_size

/-- Method `calculate_anomaly_ratio` (`helper.py`, lines 218-238).
The surrounding `try/except` only matters when `anomaly_list` must be
popped while empty (IndexError) or when `anomaly_list_size` is zero
(ZeroDivisionError after the list was already mutated); both exits keep
the state reached at the failure point. -/
noncomputable def calculate_anomaly_ratio (s : AnomalyDetectionZscore) :
    AnomalyDetectionZscore :=
  if is_model_complete s then
    if s.anomaly_list.length < s.anomaly_list_size then
      { s with anomaly_list := s.anomaly_list ++ [s.anomaly] }
    else
      match s.anomaly_list with
      | [] => s
      | _ :: rest =>
        let l := rest ++ [s.anomaly]
        if s.anomaly_list_size = 0 then { s with anomaly_list := l }
        else
          { s with
            anomaly_list := l
            anomaly_ratio := pyRoundTo 3 ((l.sum : ℝ) / (s.anomaly_list_size : ℝ)) }
  else s

/-- Method `check_if_anomaly` (`helper.py`, lines 240-276).  Each state
update of the source is applied in order; an `Option` failure at the point
where the corresponding Python expression raises returns the state built so
far, mirroring the `except` clause that logs and falls through. -/
noncomputable def check_if_anomaly (s : AnomalyDetectionZscore) (value : Value) :
    AnomalyDetectionZscore :=
  if is_model_complete s then
    match statistics_mean s.model_data with
    | none => s
    | some m =>
      let s1 := { s with model_avg := |m| }
      match statistics_stdev s.model_data with
      | none => s1
      | some sd =>
        let sdv := if |sd| = 0 then (0.001 : ℝ) else |sd|
        let s2 := { s1 with model_std_dev := sdv }
        match value with
        | none => s2
        | some v =>
          let z := pyRoundTo 4 ((|v| - |m|) / sdv)
          let s3 := { s2 with z_score := z }
          if s.z_score_thresh < |z| then { s3 with anomaly := 1 }
          else { s3 with model_data := s.model_data.tail ++ [some v], anomaly := 0 }
  else { s with model_data := s.model_data ++ [value] }

/-- One ratio-recording cycle: the caller stores the current anomaly flag
(as `check_if_anomaly` does into `_anomaly`) and then invokes
`calculate_anomaly_ratio`, matching the call sequence in
`script.py` (`calculate_integr_analytics`). -/
noncomputable def recordFlag (s : AnomalyDetectionZscore) (flag : ℤ) :
    AnomalyDetectionZscore :=
  calculate_anomaly_ratio { s with anomaly := flag }

/-- Method `OpcHandlerAnalytics.calculate_el_current_assymetry`
(`script.py`, lines 150-171).  The division by the mean of the three
integrals is unguarded in the source; a zero mean makes the division
undefined (Python float division raises `ZeroDivisionError`), modelled
here as `none`. -/
noncomputable def calculate_el_current_assymetry
    (el_current_integr_ph1_total el_current_integr_ph2_total
      el_current_integr_ph3_total : ℝ) : Option ℝ :=
  let el_current_integr_mean :=
    (el_current_integr_ph1_total + el_current_integr_ph2_total +
      el_current_integr_ph3_total) / 3
  if el_current_integr_mean = 0 then none
  else
    some (100 * ((|el_current_integr_ph1_total - el_current_integr_mean| +
      |el_current_integr_ph2_total - el_current_integr_mean| +
      |el_current_integr_ph3_total - el_current_integr_mean|) /
        el_current_integr_mean))

/-- Length of the plateau of samples equal to `v` starting at index `i`
and confined below `iMax`; this is the inner `while` loop of the scipy routine
`_local_maxima_1d`, advancing `i_ahead` over samples equal to the
candidate peak value. -/
noncomputable def plateauLen (x : List ℝ) (v : ℝ) (iMax i : ℕ) : ℕ :=
  if i < iMax then
    (if x.getD i 0 = v then plateauLen x v iMax (i + 1) + 1 else 0)
  else 0
termination_by iMax - i
decreasing_by omega

/-- Index scan of the scipy routine `_local_maxima_1d` (the basis of
`scipy.signal.find_peaks`): a sample strictly greater than its predecessor
opens a candidate; the plateau of equal samples is skipped; if the first
sample after the plateau is strictly smaller, the plateau midpoint is a
peak and the scan resumes after the plateau. -/
noncomputable def localMaximaAux (x : List ℝ) (iMax : ℕ) (i : ℕ) : List ℕ :=
  if i < iMax then
    if x.getD (i - 1) 0 < x.getD i 0 then
      let ia := i + 1 + plateauLen x (x.getD i 0) iMax (i + 1)
      if x.getD ia 0 < x.getD i 0 then
        (i + (ia - 1)) / 2 :: localMaximaAux x iMax (ia + 1)
      else localMaximaAux x iMax (i + 1)
    else localMaximaAux x iMax (i + 1)
  else []
termination_by iMax - i
decreasing_by all_goals omega

/-- Function `scipy.signal.find_peaks(x, height=h)` as used by
`script.py`: indices of interior local maxima whose sample value is at
least `height`.  The first and last samples are never peaks. -/
noncomputable def find_peaks (x : List ℝ) (height : ℝ) : List ℕ :=
  (localMaximaAux x (x.length - 1) 1).filter (fun i => height ≤ x.getD i 0)

/-- Selection of the inrush-current sample for one phase
(`script.py`, lines 196-212, guard and indexing of one `if` block):
available only when at least one peak exists and the 1-indexed
`peak_number` does not exceed the number of detected peaks. -/
noncomputable def inrush_phase (samples : List ℝ) (height : ℝ)
    (peak_number : ℕ) : Option ℝ :=
  let peaks := find_peaks samples height
  if 0 < peaks.length ∧ peak_number ≤ peaks.length then
    some (samples.getD (peaks.getD (peak_number - 1) 0) 0)
  else none

/-- Method `OpcHandlerAnalytics.calculate_inrush_current_analytics`
(`script.py`, lines 174-220), restricted to the returned triple: when any
phase lacks a selectable peak its local variable is never bound, the final
`return` raises `NameError`, and the `except` clause returns
`(False, False, False)` — modelled as `none`.  `read_values`
(lines 348-350) emits the derived record only when the result is not the
`False` triple, i.e. exactly when this function returns `some` triple. -/
noncomputable def calculate_inrush_current_analytics
    (s1 s2 s3 : List ℝ) (height : ℝ) (peak_number : ℕ) : Option (ℝ × ℝ × ℝ) :=
  match inrush_phase s1 height peak_number, inrush_phase s2 height peak_number,
      inrush_phase s3 height peak_number with
  | some a, some b, some c => some (a, b, c)
  | _, _, _ => none

lemma pyRound_intCast (n : ℤ) : pyRound (n : ℝ) = n := by
  unfold pyRound
  rw [Int.fract_intCast]
  norm_num

lemma pyRoundTo_eq_of_mul (d : ℕ) (x : ℝ) (n : ℤ) (h : x * 10 ^ d = (n : ℝ)) :
    pyRoundTo d x = (n : ℝ) / 10 ^ d := by
  unfold pyRoundTo
  rw [h, pyRound_intCast]

lemma toNums_length :
    ∀ (l : List Value) (xs : List ℝ), toNums l = some xs → xs.length = l.length := by
  intro l
  induction l with
  | nil =>
    intro xs h
    simp only [toNums, Option.some.injEq] at h
    simp [← h]
  | cons a rest ih =>
    intro xs h
    cases a with
    | none => simp [toNums] at h
    | some x =>
      simp only [toNums, Option.map_eq_some'] at h
      obtain ⟨ys, h1, h2⟩ := h
      simp [← h2, ih ys h1]

lemma statistics_stdev_some_length {l : List Value} {sd : ℝ}
    (h : statistics_stdev l = some sd) : 2 ≤ l.length := by
  unfold statistics_stdev at h
  cases hn : toNums l with
  | none => rw [hn] at h; simp at h
  | some xs =>
    rw [hn] at h
    by_cases h2 : 2 ≤ xs.length
    · rw [toNums_length l xs hn] at h2; exact h2
    · simp [h2] at h

lemma mean_ones2 : statistics_mean [some 1, some 1] = some 1 := by
  simp [statistics_mean, toNums]

lemma stdev_ones2 : statistics_stdev [some 1, some 1] = some 0 := by
  simp [statistics_stdev, toNums]

lemma mean_ones3 : statistics_mean [some 1, some 1, some 1] = some 1 := by
  simp [statistics_mean, toNums]
  norm_num

lemma stdev_ones3 : statistics_stdev [some 1, some 1, some 1] = some 0 := by
  simp [statistics_stdev, toNums]
  norm_num

lemma check_if_anomaly_building (s : AnomalyDetectionZscore) (v : Value)
    (hc : is_model_complete s = false) :
    check_if_anomaly s v = { s with model_data := s.model_data ++ [v] } := by
  unfold check_if_anomaly
  rw [hc]
  rfl

lemma check_if_anomaly_fail_mean (s : AnomalyDetectionZscore) (v : Value)
    (hc : is_model_complete s = true)
    (hm : statistics_mean s.model_data = none) :
    check_if_anomaly s v = s := by
  unfold check_if_anomaly
  rw [hc, hm]
  rfl

lemma check_if_anomaly_fail_stdev (s : AnomalyDetectionZscore) (v : Value) (m : ℝ)
    (hc : is_model_complete s = true)
    (hm : statistics_mean s.model_data = some m)
    (hsd : statistics_stdev s.model_data = none) :
    check_if_anomaly s v = { s with model_avg := |m| } := by
  unfold check_if_anomaly
  rw [hc, hm, hsd]
  rfl

lemma check_if_anomaly_complete_some (s : AnomalyDetectionZscore) (v m sd : ℝ)
    (hc : is_model_complete s = true)
    (hm : statistics_mean s.model_data = some m)
    (hsd : statistics_stdev s.model_data = some sd) :
    check_if_anomaly s (some v) =
      if s.z_score_thresh <
          |pyRoundTo 4 ((|v| - |m|) / (if |sd| = 0 then (0.001 : ℝ) else |sd|))| then
        { s with model_avg := |m|,
                 model_std_dev := if |sd| = 0 then (0.001 : ℝ) else |sd|,
                 z_score :=
                   pyRoundTo 4 ((|v| - |m|) / (if |sd| = 0 then (0.001 : ℝ) else |sd|)),
                 anomaly := 1 }
      else
        { s with model_data := s.model_data.tail ++ [some v],
                 model_avg := |m|,
                 model_std_dev := if |sd| = 0 then (0.001 : ℝ) else |sd|,
                 z_score :=
                   pyRoundTo 4 ((|v| - |m|) / (if |sd| = 0 then (0.001 : ℝ) else |sd|)),
                 anomaly := 0 } := by
  unfold check_if_anomaly
  rw [hc, hm, hsd]
  rfl

lemma check_if_anomaly_nonnumeric (s : AnomalyDetectionZscore) (m sd : ℝ)
    (hc : is_model_complete s = true)
    (hm : statistics_mean s.model_data = some m)
    (hsd : statistics_stdev s.model_data = some sd) :
    check_if_anomaly s none =
      { s with model_avg := |m|,
               model_std_dev := if |sd| = 0 then (0.001 : ℝ) else |sd| } := by
  unfold check_if_anomaly
  rw [hc, hm, hsd]
  rfl

/-- Detector unit with a complete single-point model, used to drive the
ratio buffer: `model_size = 1`, `anomaly_list_size = 3`. -/
def demoRatioUnit : AnomalyDetectionZscore :=
  { initUnit "u" 1 3 with model_data := [some 1], z_score_thresh := 2 }

/-- Detector unit with a complete two-point window `[1, 1]`. -/
def demoBadUnit : AnomalyDetectionZscore :=
  { initUnit "u" 2 3 with model_data := [some 1, some 1], z_score_thresh := 2 }

/-- Detector unit with a complete three-point window `[1, 1, 1]` and
threshold `2.0`. -/
def demoWindowUnit : AnomalyDetectionZscore :=
  { initUnit "u" 3 25 with
      model_data := [some 1, some 1, some 1], z_score_thresh := 2.0 }

/-- C7: setting the z-score threshold to exactly 0 stores the default 2.0
instead; any other real value, including negative ones, is stored
unchanged; the threshold field is never left at 0 by a setter call. -/
theorem c7_threshold_setter (s : AnomalyDetectionZscore) (t : ℝ) :
    (set_z_score_thresh s 0).z_score_thresh = 2.0 ∧
    (t ≠ 0 → (set_z_score_thresh s t).z_score_thresh = t) ∧
    (set_z_score_thresh s t).z_score_thresh ≠ 0 := by
  unfold set_z_score_thresh
  refine ⟨by simp, fun ht => by simp [ht], ?_⟩
  by_cases ht : t = 0
  · simp [ht]
    norm_num
  · simp [ht]

/-- Witness for C7 at the concrete negative threshold `-1.5`. -/
theorem c7_threshold_setter_witness :
    (set_z_score_thresh (initUnit "u" 3 3) (-1.5)).z_score_thresh = -1.5 :=
  (c7_threshold_setter (initUnit "u" 3 3) (-1.5)).2.1 (by norm_num)

/-- C10: `reset_algorithm` clears `model_data`, `anomaly_list`,
`anomaly_ratio`, `anomaly`, `model_avg`, `model_std_dev` and `z_score`
back to their initial values, and leaves the threshold, the name and the
two configured sizes unchanged. -/
theorem c10_reset_frame (s : AnomalyDetectionZscore) :
    (reset_algorithm s).z_score_thresh = s.z_score_thresh ∧
    (reset_algorithm s).name = s.name ∧
    (reset_algorithm s).model_size = s.model_size ∧
    (reset_algorithm s).anomaly_list_size = s.anomaly_list_size ∧
    (reset_algorithm s).model_data = [] ∧
    (reset_algorithm s).anomaly_list = [] ∧
    ratio_val (reset_algorithm s) = 0 ∧
    (reset_algorithm s).anomaly = 0 ∧
    (reset_algorithm s).model_avg = 0 ∧
    (reset_algorithm s).model_std_dev = 0 ∧
    (reset_algorithm s).z_score = 0 :=
  ⟨rfl, rfl, rfl, rfl, rfl, rfl, rfl, rfl, rfl, rfl, rfl⟩

/-- C9: after `reset_algorithm`, running any sequence of classify calls
produces, state by state, exactly the run of a newly created unit with the
same configuration (same name, sizes and stored threshold). -/
theorem c9_reset_reproduces_fresh (s : AnomalyDetectionZscore) (vs : List Value) :
    List.scanl check_if_anomaly (reset_algorithm s) vs =
      List.scanl check_if_anomaly
        { initUnit s.name s.model_size s.anomaly_list_size with
            z_score_thresh := s.z_score_thresh } vs :=
  rfl

/-- C2: the asymmetry of the equal integrals `(10, 10, 10)` is `0`, but on
the all-zero totals the unguarded division by the zero mean faults (no
defined value is produced), contradicting the claim that a defined value
is always returned. -/
theorem c2_asymmetry_zero_mean :
    calculate_el_current_assymetry 10 10 10 = some 0 ∧
    calculate_el_current_assymetry 0 0 0 = none := by
  constructor
  · unfold calculate_el_current_assymetry
    norm_num
  · unfold calculate_el_current_assymetry
    norm_num

lemma ratio_append_branch (s : AnomalyDetectionZscore)
    (hc : is_model_complete s = true)
    (hlen : s.anomaly_list.length < s.anomaly_list_size) :
    calculate_anomaly_ratio s = { s with anomaly_list := s.anomaly_list ++ [s.anomaly] } := by
  unfold calculate_anomaly_ratio
  rw [hc, if_pos hlen]
  rfl

/-- C1 counterexample: with `ratioCapacity = 3` and a complete model,
feeding the flags 1, 1, 1 leaves the ratio at 0.0 after the third call as
well — it does not become 1.0 as the claim states. -/
theorem c1_counterexample :
    ratio_val ( recordFlag ( recordFlag ( recordFlag demoRatioUnit 1) 1) 1) = 0 ∧
    ratio_val ( recordFlag ( recordFlag ( recordFlag demoRatioUnit 1) 1) 1) ≠ 1 := by
  have h3 : recordFlag ( recordFlag ( recordFlag demoRatioUnit 1) 1) 1 =
      { demoRatioUnit with anomaly := 1, anomaly_list := [1, 1, 1] } := rfl
  rw [h3]
  exact ⟨rfl, by norm_num [ratio_val, demoRatioUnit, initUnit,
    AnomalyDetectionZscore.anomaly_ratio]⟩

/-- C1 amended: with `ratioCapacity = 3` and a complete model, the ratio
stays 0.0 after each of the first three `recordFlag` calls (the buffer
fills to `[1, 1, 1]`); the ratio is first recomputed on the call at which
the buffer is already full at entry, so a fourth call with flag 1 yields
1.0; in general a call that finds the buffer below capacity only appends
the flag and leaves the ratio unchanged. -/
theorem c1_ratio_first_update (s : AnomalyDetectionZscore) (f : ℤ) :
    (ratio_val ( recordFlag ( recordFlag ( recordFlag demoRatioUnit 1) 1) 1) = 0 ∧
     ( recordFlag ( recordFlag ( recordFlag demoRatioUnit 1) 1) 1).anomaly_list =
       [1, 1, 1] ∧
     ratio_val
       ( recordFlag ( recordFlag ( recordFlag ( recordFlag demoRatioUnit 1) 1) 1) 1) =
         1) ∧
    (is_model_complete s = true →
      s.anomaly_list.length < s.anomaly_list_size →
      ratio_val ( recordFlag s f) = ratio_val s ∧
      ( recordFlag s f).anomaly_list = s.anomaly_list ++ [f]) := by
  constructor
  · have h3 : recordFlag ( recordFlag ( recordFlag demoRatioUnit 1) 1) 1 =
        { demoRatioUnit with anomaly := 1, anomaly_list := [1, 1, 1] } := rfl
    refine ⟨by rw [h3]; rfl, by rw [h3], ?_⟩
    rw [h3]
    have h4 : ratio_val
        ( recordFlag { demoRatioUnit with anomaly := 1, anomaly_list := [1, 1, 1] } 1) =
        pyRoundTo 3 ((3 : ℝ) / 3) := by
      norm_num [recordFlag, calculate_anomaly_ratio, ratio_val, is_model_complete,
        demoRatioUnit, initUnit, AnomalyDetectionZscore.anomaly_ratio]
    rw [h4, pyRoundTo_eq_of_mul 3 ((3 : ℝ) / 3) 1000 (by norm_num)]
    norm_num
  · intro hc hlen
    unfold recordFlag
    rw [ratio_append_branch { s with anomaly := f } hc hlen]
    exact ⟨rfl, rfl⟩

/-- Witness for the general part of the amended C1 at the concrete unit. -/
theorem c1_ratio_first_update_witness :
    ratio_val ( recordFlag demoRatioUnit 1) = ratio_val demoRatioUnit ∧
    ( recordFlag demoRatioUnit 1).anomaly_list = demoRatioUnit.anomaly_list ++ [1] :=
  (c1_ratio_first_update demoRatioUnit 1).2 rfl (by decide)

lemma statistics_mean_of_stdev {l : List Value} {sd : ℝ}
    (h : statistics_stdev l = some sd) : ∃ m, statistics_mean l = some m := by
  unfold statistics_stdev at h
  unfold statistics_mean
  cases hn : toNums l with
  | none => rw [hn] at h; simp at h
  | some xs =>
    rw [hn] at h
    by_cases h2 : 2 ≤ xs.length
    · have hne : xs ≠ [] := by
        intro he
        subst he
        simp at h2
      simp [hne]
    · simp [h2] at h

/-- C3 counterexample: on a complete two-point model `[1, 1]` whose stored
mean is still 0, a non-numeric input makes the classification fail, yet the
state of the unit is mutated halfway: `model_avg` has already been recomputed
to 1 before the failure point. -/
theorem c3_counterexample :
    (check_if_anomaly demoBadUnit none).model_avg ≠ demoBadUnit.model_avg := by
  rw [check_if_anomaly_nonnumeric demoBadUnit 1 0 rfl mean_ones2 stdev_ones2]
  norm_num [demoBadUnit, initUnit]

/-- C3 amended: a failing classification (degenerate window statistics or a
non-numeric input on a complete model) is caught and never re-raised, and
`model_data`, `anomaly`, `z_score`, `anomaly_list` and the ratio are left
unchanged; `model_avg` and `model_std_dev`, however, may already have been
recomputed from the window before the failure point. -/
theorem c3_failure_state_frame (s : AnomalyDetectionZscore) (v : Value)
    (hc : is_model_complete s = true)
    (hf : statistics_stdev s.model_data = none ∨ v = none) :
    (check_if_anomaly s v).model_data = s.model_data ∧
    (check_if_anomaly s v).anomaly = s.anomaly ∧
    (check_if_anomaly s v).z_score = s.z_score ∧
    (check_if_anomaly s v).anomaly_list = s.anomaly_list ∧
    ratio_val (check_if_anomaly s v) = ratio_val s := by
  rcases hf with hsd | hv
  · cases hm : statistics_mean s.model_data with
    | none =>
      rw [check_if_anomaly_fail_mean s v hc hm]
      exact ⟨rfl, rfl, rfl, rfl, rfl⟩
    | some m =>
      rw [check_if_anomaly_fail_stdev s v m hc hm hsd]
      exact ⟨rfl, rfl, rfl, rfl, rfl⟩
  · subst hv
    cases hsd : statistics_stdev s.model_data with
    | none =>
      cases hm : statistics_mean s.model_data with
      | none =>
        rw [check_if_anomaly_fail_mean s none hc hm]
        exact ⟨rfl, rfl, rfl, rfl, rfl⟩
      | some m =>
        rw [check_if_anomaly_fail_stdev s none m hc hm hsd]
        exact ⟨rfl, rfl, rfl, rfl, rfl⟩
    | some sd =>
      obtain ⟨m, hm⟩ := statistics_mean_of_stdev hsd
      rw [check_if_anomaly_nonnumeric s m sd hc hm hsd]
      exact ⟨rfl, rfl, rfl, rfl, rfl⟩

/-- Witness for the amended C3 at the concrete unit and a non-numeric input. -/
theorem c3_failure_state_frame_witness :
    (check_if_anomaly demoBadUnit none).model_data = demoBadUnit.model_data ∧
    (check_if_anomaly demoBadUnit none).anomaly = demoBadUnit.anomaly ∧
    (check_if_anomaly demoBadUnit none).z_score = demoBadUnit.z_score ∧
    (check_if_anomaly demoBadUnit none).anomaly_list = demoBadUnit.anomaly_list ∧
    ratio_val (check_if_anomaly demoBadUnit none) = ratio_val demoBadUnit :=
  c3_failure_state_frame demoBadUnit none rfl (Or.inr rfl)

/-- C4: on the full window `[1, 1, 1]` (capacity 3, threshold 2.0) the
value 10 gives mean 1, standard deviation floored to 0.001, z-score 9000
and an anomaly flag, with the window left untouched; in general, whenever
a complete model classifies a value as anomalous, the window contents are
not modified by the call. -/
theorem c4_anomaly_keeps_window :
    ((check_if_anomaly demoWindowUnit (some 10)).model_avg = 1 ∧
     (check_if_anomaly demoWindowUnit (some 10)).model_std_dev = 0.001 ∧
     (check_if_anomaly demoWindowUnit (some 10)).z_score = 9000 ∧
     (check_if_anomaly demoWindowUnit (some 10)).anomaly = 1 ∧
     (check_if_anomaly demoWindowUnit (some 10)).model_data =
       demoWindowUnit.model_data) ∧
    ∀ (s : AnomalyDetectionZscore) (v : ℝ),
      is_model_complete s = true →
      (check_if_anomaly s (some v)).anomaly = 1 →
      (check_if_anomaly s (some v)).model_data = s.model_data := by
  constructor
  · have hsdv : (if |(0 : ℝ)| = 0 then (0.001 : ℝ) else |(0 : ℝ)|) = 0.001 := by
      norm_num
    have hz : pyRoundTo 4
        ((|(10 : ℝ)| - |(1 : ℝ)|) / (if |(0 : ℝ)| = 0 then (0.001 : ℝ) else |(0 : ℝ)|)) =
        9000 := by
      rw [hsdv]
      have h1 : (|(10 : ℝ)| - |(1 : ℝ)|) / (0.001 : ℝ) = 9000 := by norm_num
      rw [h1, pyRoundTo_eq_of_mul 4 9000 90000000 (by norm_num)]
      norm_num
    rw [check_if_anomaly_complete_some demoWindowUnit 10 1 0 rfl mean_ones3 stdev_ones3,
      hz, hsdv]
    have hcond : demoWindowUnit.z_score_thresh < |(9000 : ℝ)| := by
      norm_num [demoWindowUnit, initUnit]
    rw [if_pos hcond]
    exact ⟨by norm_num, rfl, rfl, rfl, rfl⟩
  · intro s v hc ha
    cases hm : statistics_mean s.model_data with
    | none => rw [check_if_anomaly_fail_mean s (some v) hc hm]
    | some m =>
      cases hsd : statistics_stdev s.model_data with
      | none => rw [check_if_anomaly_fail_stdev s (some v) m hc hm hsd]
      | some sd =>
        rw [check_if_anomaly_complete_some s v m sd hc hm hsd] at ha ⊢
        by_cases hcond : s.z_score_thresh <
            |pyRoundTo 4 ((|v| - |m|) / (if |sd| = 0 then (0.001 : ℝ) else |sd|))|
        · rw [if_pos hcond]
        · rw [if_neg hcond] at ha
          simp at ha

/-- Witness for the general part of C4 at the concrete anomalous call. -/
theorem c4_anomaly_keeps_window_witness :
    (check_if_anomaly demoWindowUnit (some 10)).model_data =
      demoWindowUnit.model_data :=
  c4_anomaly_keeps_window.2 demoWindowUnit 10 rfl c4_anomaly_keeps_window.1.2.2.2.1

lemma check_model_size (s : AnomalyDetectionZscore) (v : Value) :
    (check_if_anomaly s v).model_size = s.model_size := by
  by_cases hc : is_model_complete s = true
  · cases hm : statistics_mean s.model_data with
    | none => rw [check_if_anomaly_fail_mean s v hc hm]
    | some m =>
      cases hsd : statistics_stdev s.model_data with
      | none => rw [check_if_anomaly_fail_stdev s v m hc hm hsd]
      | some sd =>
        cases v with
        | none => rw [check_if_anomaly_nonnumeric s m sd hc hm hsd]
        | some x =>
          rw [check_if_anomaly_complete_some s x m sd hc hm hsd]
          split <;> split <;> rfl
  · have hcf : is_model_complete s = false := by simpa using hc
    rw [check_if_anomaly_building s v hcf]

lemma check_complete_length (s : AnomalyDetectionZscore) (v : Value)
    (hc : is_model_complete s = true) :
    (check_if_anomaly s v).model_data.length = s.model_data.length := by
  cases hm : statistics_mean s.model_data with
  | none => rw [check_if_anomaly_fail_mean s v hc hm]
  | some m =>
    cases hsd : statistics_stdev s.model_data with
    | none => rw [check_if_anomaly_fail_stdev s v m hc hm hsd]
    | some sd =>
      cases v with
      | none => rw [check_if_anomaly_nonnumeric s m sd hc hm hsd]
      | some x =>
        rw [check_if_anomaly_complete_some s x m sd hc hm hsd]
        have hlen : 2 ≤ s.model_data.length := statistics_stdev_some_length hsd
        by_cases hcond : s.z_score_thresh <
            |pyRoundTo 4 ((|x| - |m|) / (if |sd| = 0 then (0.001 : ℝ) else |sd|))|
        · rw [if_pos hcond]
        · rw [if_neg hcond]
          simp
          omega

/-- C5: the window length never exceeds the capacity: it holds for a fresh
unit, is preserved by every `check_if_anomaly` call (which also never
changes the capacity), and once the window is full every later call keeps
its length exactly at the capacity. -/
theorem c5_window_size_invariant (name : String) (N L : ℕ)
    (s : AnomalyDetectionZscore) (v : Value) :
    (initUnit name N L).model_data.length ≤ N ∧
    (check_if_anomaly s v).model_size = s.model_size ∧
    (s.model_data.length ≤ s.model_size →
      (check_if_anomaly s v).model_data.length ≤ s.model_size) ∧
    (s.model_data.length = s.model_size →
      (check_if_anomaly s v).model_data.length = s.model_size) := by
  refine ⟨by simp [initUnit], check_model_size s v, ?_, ?_⟩
  · intro hle
    by_cases hc : s.model_data.length = s.model_size
    · have hcb : is_model_complete s = true := by simp [is_model_complete, hc]
      rw [check_complete_length s v hcb, hc]
    · have hcb : is_model_complete s = false := by
        simp [is_model_complete]
        exact hc
      rw [check_if_anomaly_building s v hcb]
      simp
      omega
  · intro heq
    have hcb : is_model_complete s = true := by simp [is_model_complete, heq]
    rw [check_complete_length s v hcb, heq]

/-- Witness for C5 at a concrete full window. -/
theorem c5_window_size_invariant_witness :
    (check_if_anomaly demoWindowUnit (some 10)).model_data.length =
      demoWindowUnit.model_size :=
  (c5_window_size_invariant "u" 3 25 demoWindowUnit (some 10)).2.2.2 rfl

lemma foldl_check_building :
    ∀ (vs : List Value) (s : AnomalyDetectionZscore),
      s.model_data.length + vs.length ≤ s.model_size →
      List.foldl check_if_anomaly s vs = { s with model_data := s.model_data ++ vs } := by
  intro vs
  induction vs with
  | nil =>
    intro s h
    simp
  | cons v rest ih =>
    intro s h
    have hlt : s.model_data.length < s.model_size := by
      simp at h
      omega
    have hc : is_model_complete s = false := by
      simp [is_model_complete]
      omega
    rw [List.foldl_cons, check_if_anomaly_building s v hc]
    rw [ih { s with model_data := s.model_data ++ [v] } (by simp at h ⊢; omega)]
    simp

/-- C8: on a freshly created unit with capacity `N`, any run of at most
`N` classify calls only appends the supplied values to the window,
whatever they are: every other field keeps its initial value, so no
anomaly determination is made before the window is full. -/
theorem c8_model_building_phase (name : String) (N L : ℕ) (vs : List Value)
    (h : vs.length ≤ N) :
    List.foldl check_if_anomaly (initUnit name N L) vs =
      { initUnit name N L with model_data := vs } := by
  have h0 : (initUnit name N L).model_data.length + vs.length ≤
      (initUnit name N L).model_size := by
    simp [initUnit]
    omega
  rw [foldl_check_building vs (initUnit name N L) h0]
  simp [initUnit]

/-- Witness for C8: three calls (one with a non-numeric payload) on a
fresh capacity-3 unit just fill the window. -/
theorem c8_model_building_phase_witness :
    List.foldl check_if_anomaly (initUnit "u" 3 2) [some 5, none, some 7] =
      { initUnit "u" 3 2 with model_data := [some 5, none, some 7] } :=
  c8_model_building_phase "u" 3 2 [some 5, none, some 7] (by decide)

/-- Sample curve used by the peak test of the specification: `[0,0,5,0,0,8,0]`. -/
def demoSamples : List ℝ := [0, 0, 5, 0, 0, 8, 0]

lemma demoSamples_len : demoSamples.length = 7 := rfl

lemma dgq0 : demoSamples[0]?.getD 0 = 0 := rfl

lemma dgq1 : demoSamples[1]?.getD 0 = 0 := rfl

lemma dgq2 : demoSamples[2]?.getD 0 = 5 := rfl

lemma dgq3 : demoSamples[3]?.getD 0 = 0 := rfl

lemma dgq4 : demoSamples[4]?.getD 0 = 0 := rfl

lemma dgq5 : demoSamples[5]?.getD 0 = 8 := rfl

lemma dgq6 : demoSamples[6]?.getD 0 = 0 := rfl

lemma pl6 : plateauLen demoSamples 8 6 6 = 0 := by
  rw [plateauLen.eq_def]
  norm_num

lemma pl3 : plateauLen demoSamples 5 6 3 = 0 := by
  rw [plateauLen.eq_def]
  norm_num [dgq3]

lemma lm7 : localMaximaAux demoSamples 6 7 = [] := by
  rw [localMaximaAux.eq_def]
  norm_num

lemma lm5 : localMaximaAux demoSamples 6 5 = [5] := by
  rw [localMaximaAux.eq_def]
  norm_num [dgq4, dgq5, dgq6, pl6, lm7]

lemma lm4 : localMaximaAux demoSamples 6 4 = [5] := by
  rw [localMaximaAux.eq_def]
  norm_num [dgq3, dgq4, lm5]

lemma lm2 : localMaximaAux demoSamples 6 2 = [2, 5] := by
  rw [localMaximaAux.eq_def]
  norm_num [dgq1, dgq2, dgq3, pl3, lm4]

lemma lm1 : localMaximaAux demoSamples 6 1 = [2, 5] := by
  rw [localMaximaAux.eq_def]
  norm_num [dgq0, dgq1, lm2]

lemma find_peaks_demo : find_peaks demoSamples 3 = [2, 5] := by
  unfold find_peaks
  rw [demoSamples_len]
  norm_num [lm1, List.filter_cons, List.filter_nil, decide_eq_true_eq, dgq2, dgq5]

lemma inrush_phase_unavailable (samples : List ℝ) (h : ℝ) (pn : ℕ)
    (hlt : (find_peaks samples h).length < pn) :
    inrush_phase samples h pn = none := by
  unfold inrush_phase
  rw [if_neg]
  rintro ⟨h1, h2⟩
  omega

lemma inrush_demo1 : inrush_phase demoSamples 3 1 = some 5 := by
  unfold inrush_phase
  rw [find_peaks_demo]
  norm_num [dgq2]

lemma inrush_demo2 : inrush_phase demoSamples 3 2 = some 8 := by
  unfold inrush_phase
  rw [find_peaks_demo]
  norm_num [dgq5]

/-- C6: on the samples `[0,0,5,0,0,8,0]` with minimum peak height 3, two
peaks of values 5 and 8 are found; `peakNumber` 1 selects 5, 2 selects 8,
3 is unavailable; and whenever any of the three phases has fewer detected
peaks than `peakNumber`, the finalize step produces no derived record for
the cycle at all. -/
theorem c6_inrush_peak_selection :
    ((find_peaks demoSamples 3).map (fun i => demoSamples.getD i 0) = [5, 8] ∧
     inrush_phase demoSamples 3 1 = some 5 ∧
     inrush_phase demoSamples 3 2 = some 8 ∧
     inrush_phase demoSamples 3 3 = none) ∧
    ∀ (s1 s2 s3 : List ℝ) (h : ℝ) (pn : ℕ),
      ((find_peaks s1 h).length < pn ∨ (find_peaks s2 h).length < pn ∨
        (find_peaks s3 h).length < pn) →
      calculate_inrush_current_analytics s1 s2 s3 h pn = none := by
  constructor
  · refine ⟨?_, inrush_demo1, inrush_demo2, ?_⟩
    · rw [find_peaks_demo]
      norm_num [dgq2, dgq5]
    · exact inrush_phase_unavailable demoSamples 3 3 (by rw [find_peaks_demo]; norm_num)
  · intro s1 s2 s3 h pn hlt
    unfold calculate_inrush_current_analytics
    rcases hlt with h1 | h2 | h3
    · rw [inrush_phase_unavailable s1 h pn h1]
    · rw [inrush_phase_unavailable s2 h pn h2]
      cases inrush_phase s1 h pn <;> rfl
    · rw [inrush_phase_unavailable s3 h pn h3]
      cases inrush_phase s1 h pn <;> cases inrush_phase s2 h pn <;> rfl

/-- Witness for C6: with `peakNumber = 3` none of the three phases has
enough peaks, so no record is produced. -/
theorem c6_inrush_peak_selection_witness :
    calculate_inrush_current_analytics demoSamples demoSamples demoSamples 3 3 =
      none :=
  c6_inrush_peak_selection.2 demoSamples demoSamples demoSamples 3 3
    (Or.inl (by rw [find_peaks_demo]; norm_num))
